import Mathlib

/-!
Verification development for the MCCI_Catena_SGPC3 driver (Sensirion SGPC3
TVOC sensor library).  The definitions below are a shallow embedding of
`src/lib/MCCI_Catena_SGPC3.cpp` together with the command-descriptor layer of
the accompanying header (`cSGPC3_cmds`).  Machine integers are modelled as
`Nat` with explicit truncation (`% 2^8`, `% 2^16`, `% 2^32`) exactly where the
C++ types truncate.  The I2C transport (`TwoWire`) and the millisecond clock
are modelled as oracles: streams of `endTransmission` status codes,
`requestFrom` byte counts, and `millis()` readings, indexed by call order.
-/

namespace SGPC3

/-- Result codes.  The header under `src` declares `Success`, `Failure`,
`InvalidParmameter` and `NotSupported`; the implementation file additionally
returns `WriteError`, `ReadError`, `BadCRC` and `WrongDeviceType` (declared in
a later header revision), so the embedding carries the full set used by the
implementation. -/
inductive Error
  | Success
  | Failure
  | InvalidParameter
  | NotSupported
  | WriteError
  | ReadError
  | BadCRC
  | WrongDeviceType
deriving DecidableEq

/-- `cSGPC3::isSuccess`. -/
def isSuccess (e : Error) : Bool :=
  e = Error.Success

/-- `cSGPC3::PowerMode_t`: `UltraLow = 0`, `Low = 1`. -/
inductive PowerMode
  | UltraLow
  | Low
deriving DecidableEq

/-- The value of `std::uint16_t(mode)` for a `PowerMode_t`. -/
def PowerMode.toUint16 : PowerMode → Nat
  | .UltraLow => 0
  | .Low => 1

/-! ## Command descriptor packing (`cSGPC3_cmds`) -/

/-- `kCommandMask = 0x3FFF << 0`. -/
def kCommandMask : Nat := 0x3FFF

/-- `kParamLenMask = 0x1 << 16`. -/
def kParamLenMask : Nat := 0x1 <<< 16

/-- `kResponseLenMask = 0x7 << 17`. -/
def kResponseLenMask : Nat := 0x7 <<< 17

/-- `kFeatureMask = 0xF << 20`. -/
def kFeatureMask : Nat := 0xF <<< 20

/-- `kDelayMask = 0xFF << 24`. -/
def kDelayMask : Nat := 0xFF <<< 24

/-- `cSGPC3_cmds::CommandInit`.  The C++ parameters are
`(uint16_t code, uint8_t paramLen, uint8_t responseLen, uint8_t delayMs,
uint8_t featureSet)`; the leading `let`s perform the truncation done by those
parameter types.  Note that `paramLen` and `responseLen` are byte counts
(including the CRC byte) and are divided by 3 before being packed. -/
def CommandInit (code paramLen responseLen delayMs featureSet : Nat) : Nat :=
  let code := code % 2 ^ 16
  let paramLen := paramLen % 2 ^ 8
  let responseLen := responseLen % 2 ^ 8
  let delayMs := delayMs % 2 ^ 8
  let featureSet := featureSet % 2 ^ 8
  (code &&& kCommandMask) |||
    (((paramLen / 3) <<< 16) &&& kParamLenMask) |||
    (((responseLen / 3) <<< 17) &&& kResponseLenMask) |||
    ((featureSet <<< 20) &&& kFeatureMask) |||
    ((delayMs <<< 24) &&& kDelayMask)

/-- `cSGPC3_cmds::getCommand`: `std::uint16_t(c) & kCommandMask`. -/
def getCommand (c : Nat) : Nat :=
  (c % 2 ^ 16) &&& kCommandMask

/-- `cSGPC3_cmds::getParameterLength`: `((uint32_t(c) & kParamLenMask) >> 16)`. -/
def getParameterLength (c : Nat) : Nat :=
  ((c % 2 ^ 32) &&& kParamLenMask) >>> 16

/-- `cSGPC3_cmds::getResponseLength`: `((uint32_t(c) & kResponseLenMask) >> 17)`. -/
def getResponseLength (c : Nat) : Nat :=
  ((c % 2 ^ 32) &&& kResponseLenMask) >>> 17

/-- `cSGPC3_cmds::getFeatureSet`: `((uint32_t(c) & kFeatureMask) >> 20)`. -/
def getFeatureSet (c : Nat) : Nat :=
  ((c % 2 ^ 32) &&& kFeatureMask) >>> 20

/-- `cSGPC3_cmds::getDelayMs`: `(uint32_t(c) & kDelayMask) >> 24`. -/
def getDelayMs (c : Nat) : Nat :=
  ((c % 2 ^ 32) &&& kDelayMask) >>> 24

/-! The command constants of `enum class cSGPC3_cmds::Command_t`. -/

namespace Command_t

def measure_tvoc : Nat := CommandInit 0x2008 0 3 50 0

def get_tvoc_baseline : Nat := CommandInit 0x2015 0 3 10 0

def set_tvoc_baseline : Nat := CommandInit 0x201e 3 0 10 0

def get_feature_set_version : Nat := CommandInit 0x202f 0 3 10 0

def measure_test : Nat := CommandInit 0x2032 0 3 220 0

def measure_tvoc_and_raw : Nat := CommandInit 0x2046 0 6 50 0

def measure_raw : Nat := CommandInit 0x204d 0 3 50 0

def set_absolute_humidity : Nat := CommandInit 0x2061 3 0 10 6

def set_power_mode : Nat := CommandInit 0x209f 3 0 10 6

def tvoc_init_continuous : Nat := CommandInit 0x20ae 0 0 10 0

def get_tvoc_inceptive_baseline : Nat := CommandInit 0x20b3 0 3 10 5

def get_serial_id : Nat := CommandInit 0x3682 0 9 1 0

end Command_t

/-! ## The checksum engine (`cSGPC3::crc`) -/

/-- The 16-entry nibble lookup table `crcTable` of `cSGPC3::crc`. -/
def crcTable : List Nat :=
  [0x00, 0x31, 0x62, 0x53, 0xc4, 0xf5, 0xa6, 0x97,
   0xb9, 0x88, 0xdb, 0xea, 0x7d, 0x4c, 0x1f, 0x2e]

/-- One iteration of the loop body of `cSGPC3::crc`: the running `crc8`
accumulator is updated with one input byte `b` in two nibble steps.  The
`% 256` truncations correspond to the assignments to the `uint8_t` variable
`crc8`. -/
def crcByteStep (crc8 b : Nat) : Nat :=
  let p1 := ((b ^^^ crc8) % 256) >>> 4
  let c1 := ((crc8 <<< 4) ^^^ crcTable.getD p1 0) % 256
  let p2 := ((c1 >>> 4) ^^^ b) &&& 0xF
  ((c1 <<< 4) ^^^ crcTable.getD p2 0) % 256

/-- `cSGPC3::crc(buf, nBuf, crc8)`.  The buffer entries and the seed are
`uint8_t`, hence the truncations at entry.  The declaration carrying the
default seed value is in a header revision not among the sources; all internal
callers invoke `crc(buf, 2)` with the default.  Modelled from the spec: the
default seed (`DEFAULT_SEED`) is the Sensirion CRC-8 initial value `0xFF`. -/
def crc (buf : List Nat) (crc8 : Nat) : Nat :=
  buf.foldl (fun a b => crcByteStep a (b % 256)) (crc8 % 256)

/-- The default CRC seed used by every internal call site (see `crc`). -/
def kCrcSeedDefault : Nat := 0xFF

/-! ### Reference bitwise CRC-8 (specification for the refinement claim)

The following definitions are NOT part of the source; they are the textbook
bit-at-a-time CRC-8 with polynomial `0x31` (x^8 + x^5 + x^4 + 1), MSB first,
byte XORed into the accumulator, no final XOR.  They serve as the independent
reference against which the table-driven `crc` above is compared. -/

/-- One shift step of the reference CRC-8/0x31 (MSB-first). -/
def crcBitStep (acc : Nat) : Nat :=
  if acc &&& 0x80 ≠ 0 then ((acc <<< 1) % 256) ^^^ 0x31 else (acc <<< 1) % 256

/-- `n` shift steps of the reference CRC. -/
def crcBits : Nat → Nat → Nat
  | 0, acc => acc
  | n + 1, acc => crcBits n (crcBitStep acc)

/-- Reference processing of one byte: XOR into the accumulator, then 8 shift
steps. -/
def crcRefByte (acc b : Nat) : Nat :=
  crcBits 8 ((acc ^^^ b) % 256)

/-- Reference CRC over a byte list. -/
def crcRef (buf : List Nat) (seed : Nat) : Nat :=
  buf.foldl crcRefByte seed

/-! ## Big-endian 16-bit helpers

`cSGPC3::putbe16` / `cSGPC3::getbe16` are declared in a header revision not
among the sources.  Modelled from the spec: parameter and response words are
2-byte big-endian values (`p[0]` the high byte). -/

/-- Modelled from the spec: `getbe16(p) = (p[0] << 8) | p[1]` over `uint8_t`
entries. -/
def getbe16 (p : List Nat) : Nat :=
  ((p.getD 0 0 % 256) <<< 8) ||| (p.getD 1 0 % 256)

/-- Modelled from the spec: `putbe16` writes `v` big-endian into two bytes. -/
def putbe16 (v : Nat) : List Nat :=
  [((v % 2 ^ 16) >>> 8) % 256, v % 256]

/-! ## Timing -/

/-- `kTpuMs`: delay after reset before the device may be accessed. -/
def kTpuMs : Nat := 600

/-- Wraparound (uint32) subtraction `a - b`. -/
def u32sub (a b : Nat) : Nat :=
  (a % 2 ^ 32 + 2 ^ 32 - b % 2 ^ 32) % 2 ^ 32

/-- Reinterpret a `uint32` value as a signed 32-bit integer. -/
def toInt32 (x : Nat) : Int :=
  if x % 2 ^ 32 < 2 ^ 31 then (x % 2 ^ 32 : Int) else (x % 2 ^ 32 : Int) - 2 ^ 32

/-- The guard of the wait loop in `cSGPC3::sendCommand`:
`while (std::int32_t(this->m_tAvail - tNow < 0)) ...`.
In the source the cast applies to the comparison, not to the subtraction:
`m_tAvail - tNow` is computed in `uint32`, compared `< 0` as an unsigned value
(which is never true), and the resulting `bool` is cast to `int32_t`.  The
guard is therefore the Lean proposition `u32sub m_tAvail tNow < 0` over `Nat`,
which is false for every pair of times. -/
def busWaitGuard (tAvail tNow : Nat) : Bool :=
  decide (u32sub tAvail tNow < 0)

/-! ## Machine state -/

/-- The transport oracle standing in for `TwoWire`.  `endStatus k` is the
result of the `k`-th `endTransmission()` call, `avail k` the count returned by
the `k`-th `requestFrom()` call.  `supplied k` holds the bytes the device
would deliver for the `k`-th read request; the implementation's `sendCommand`
never calls `read()` after `requestFrom`, so this field is never consumed. -/
structure Wire where
  endStatus : Nat → Nat
  avail : Nat → Nat
  supplied : Nat → List Nat

/-- The session fields of `cSGPC3`: `m_powerMode`, `m_tAvail`, `m_featureSet`. -/
structure Session where
  powerMode : PowerMode
  tAvail : Nat
  featureSet : Nat

/-- The whole machine: session state, transport oracle, clock oracle
(`clock k` is the value of the `k`-th `millis()` call), call counters, and a
log of the byte sequences written per I2C write transaction. -/
structure M where
  sess : Session
  wire : Wire
  clock : Nat → Nat
  clockIdx : Nat
  endIdx : Nat
  reqIdx : Nat
  writeLog : List (List Nat)

/-- One call of `millis()`: a `uint32` millisecond reading. -/
def millisCall (m : M) : Nat × M :=
  ((m.clock m.clockIdx) % 2 ^ 32, { m with clockIdx := m.clockIdx + 1 })

/-! ## The transaction executor (`cSGPC3::sendCommand` and wrappers) -/

/-- `cSGPC3::sendCommand(c, pParamBytes, pResultBytes)`.

The wait loop is modelled by its guard `busWaitGuard`, which is false for
every input (see the source note on `busWaitGuard`), so the loop body is
unreachable and the first `millis()` sample is used throughout.

`pParam = none` models `pParamBytes == nullptr`; when present, the loop writes
3 bytes per parameter word.  The result-buffer pointer `pResultBytes` is never
written by the source function (after `requestFrom` no `read()` call occurs),
so it does not appear here: a caller's buffer keeps its prior contents. -/
def sendCommand (m : M) (c : Nat) (pParam : Option (List Nat)) : Error × M :=
  let cmd := getCommand c
  let (tNow, m) := millisCall m
  if h : busWaitGuard m.sess.tAvail tNow then
    absurd h (by simp [busWaitGuard])
  else
    let paramBytes :=
      match pParam with
      | none => []
      | some ps => (ps.take (3 * getParameterLength c)).map (· % 256)
    let bytes := [(cmd >>> 8) % 256, cmd % 256] ++ paramBytes
    let i2c_result := (m.wire.endStatus m.endIdx) % 256
    let m := { m with
      endIdx := m.endIdx + 1
      writeLog := m.writeLog ++ [bytes]
      sess := { m.sess with tAvail := (tNow + getDelayMs c + 1) % 2 ^ 32 } }
    if i2c_result ≠ 0 then
      (Error.WriteError, m)
    else
      let nResult := getResponseLength c
      if nResult = 0 then
        (Error.Success, m)
      else
        let nReadFrom := (m.wire.avail m.reqIdx) % 256
        let m := { m with reqIdx := m.reqIdx + 1 }
        if nReadFrom ≠ nResult * 3 then
          (Error.ReadError, m)
        else
          (Error.Success, m)

/-- `cSGPC3::sendCommandBare`. -/
def sendCommandBare (m : M) (c : Nat) : Error × M :=
  sendCommand m c none

/-- `cSGPC3::sendCommandWithParam(c, param)`: `putbe16` the parameter, append
its CRC, send. -/
def sendCommandWithParam (m : M) (c : Nat) (param : Nat) : Error × M :=
  let paramBuf := putbe16 param
  let paramBuf := paramBuf ++ [crc paramBuf kCrcSeedDefault]
  sendCommand m c (some paramBuf)

/-- `cSGPC3::sendCommandWithResponse(c, response)`.

`responseBuf` models the indeterminate initial contents of the 3-byte stack
buffer `uint8_t responseBuf[3]` (C++ leaves it uninitialized).  Because the
source's `sendCommand` never stores the transport's bytes into the buffer,
the CRC check and the decoded response below see that initial content.  The
returned `Option Nat` is the `response` out-parameter: `none` when it was not
assigned. -/
def sendCommandWithResponse (m : M) (c : Nat) (responseBuf : List Nat) :
    (Error × Option Nat) × M :=
  let (result, m) := sendCommand m c none
  if ¬ isSuccess result then
    ((result, none), m)
  else if crc (responseBuf.take 2) kCrcSeedDefault ≠ responseBuf.getD 2 0 % 256 then
    ((Error.BadCRC, none), m)
  else
    ((Error.Success, some (getbe16 responseBuf)), m)

/-- `cSGPC3::sendCommandWithTwoResponses`. `responseBuf` models the
uninitialized 6-byte stack buffer; the pair is the two out-parameters. -/
def sendCommandWithTwoResponses (m : M) (c : Nat) (responseBuf : List Nat) :
    (Error × Option (Nat × Nat)) × M :=
  let (result, m) := sendCommand m c none
  if ¬ isSuccess result then
    ((result, none), m)
  else if crc (responseBuf.take 2) kCrcSeedDefault ≠ responseBuf.getD 2 0 % 256 then
    ((Error.BadCRC, none), m)
  else if crc ((responseBuf.drop 3).take 2) kCrcSeedDefault ≠ responseBuf.getD 5 0 % 256 then
    ((Error.BadCRC, none), m)
  else
    ((Error.Success, some (getbe16 responseBuf, getbe16 (responseBuf.drop 3))), m)

/-! ## Capability gate and synchronous wrappers -/

/-- `cSGPC3::isSupported(c)`: `NotSupported` when `m_featureSet` is below the
command's required feature set, `Success` otherwise. -/
def isSupported (featureSet c : Nat) : Error :=
  if featureSet < getFeatureSet c then Error.NotSupported else Error.Success

/-- `cSGPC3::sendSynchronous<c>()` (no parameter, no response): gate on
`isSupported`, then `sendCommandBare`.  The source writes the guard as
`if (! isSupported(eSupported)) return eSupported;`, where the inner call is
(per the surrounding pattern and the doc comment) the success test on the
gate's result. -/
def sendSynchronousBare (m : M) (c : Nat) : Error × M :=
  let eSupported := isSupported m.sess.featureSet c
  if ¬ isSuccess eSupported then
    (eSupported, m)
  else
    sendCommandBare m c

/-- `cSGPC3::sendSynchronous<c>(param)`: gate, then `sendCommandWithParam`. -/
def sendSynchronousParam (m : M) (c : Nat) (param : Nat) : Error × M :=
  let eSupported := isSupported m.sess.featureSet c
  if ¬ isSuccess eSupported then
    (eSupported, m)
  else
    sendCommandWithParam m c param

/-- `cSGPC3::sendAndGetSynchronous<c>(response)`: gate, then
`sendCommandWithResponse`.  `responseBuf` is the caller's uninitialized stack
buffer (see `sendCommandWithResponse`). -/
def sendAndGetSynchronous (m : M) (c : Nat) (responseBuf : List Nat) :
    (Error × Option Nat) × M :=
  let eSupported := isSupported m.sess.featureSet c
  if ¬ isSuccess eSupported then
    ((eSupported, none), m)
  else
    sendCommandWithResponse m c responseBuf

/-! ## Sensor session operations -/

/-- `cSGPC3::set_power_mode_synchronous(mode)`: issue the command; update
`m_powerMode` only on success. -/
def set_power_mode_synchronous (m : M) (mode : PowerMode) : Error × M :=
  let (result, m1) := sendSynchronousParam m Command_t.set_power_mode mode.toUint16
  if isSuccess result then
    (result, { m1 with sess := { m1.sess with powerMode := mode } })
  else
    (result, m1)

/-- `cSGPC3::tvoc_init_continuous()`: gate, then
`sendSynchronous<tvoc_init_continuous>()` (which gates again). -/
def tvoc_init_continuous (m : M) : Error × M :=
  let result := isSupported m.sess.featureSet Command_t.tvoc_init_continuous
  if isSuccess result then
    sendSynchronousBare m Command_t.tvoc_init_continuous
  else
    (result, m)

/-- `cSGPC3::handleChipReset(when)` with the default argument
`when = millis()`: reset `m_powerMode` to `Low` and set
`m_tAvail = when + kTpuMs`. -/
def handleChipReset (m : M) : M :=
  let (tWhen, m) := millisCall m
  { m with sess :=
      { m.sess with powerMode := PowerMode.Low, tAvail := (tWhen + kTpuMs) % 2 ^ 32 } }

/-- Modelled from the spec: `featureSet_getProductType` decodes the
product-type field of the feature-set word.  The declaring header revision is
not among the sources; per the spec's discovery step and the Sensirion SGP
feature-set layout, the product type is the top 4 bits of the 16-bit word. -/
def featureSet_getProductType (fs : Nat) : Nat :=
  (fs % 2 ^ 16) >>> 12

/-- Modelled from the spec: `featureSet_getProductVersion` decodes the
product-version field, the low byte of the feature-set word. -/
def featureSet_getProductVersion (fs : Nat) : Nat :=
  fs % 256

/-- Modelled from the spec: `ProductType_t::SGPC3`, the product-type code of
the SGPC3 family (`1` in the SGP feature-set encoding). -/
def kProductType_SGPC3 : Nat := 1

/-- `cSGPC3::begin(mode)`.

`discoveryBuf` models the uninitialized stack buffer of the
`sendAndGetSynchronous<get_feature_set_version>` call.  Mirroring the source:
chip reset, feature discovery, `m_featureSet = 0`, result/product-type/version
checks, `m_featureSet = productVersion`, then `set_power_mode_synchronous`
whose result is overwritten by `tvoc_init_continuous()`'s result — exactly as
the two consecutive assignments to `result` do in the source. -/
def begin (m : M) (mode : PowerMode) (discoveryBuf : List Nat) : Error × M :=
  let m := handleChipReset m
  let ((result, oFeatureSet), m) :=
    sendAndGetSynchronous m Command_t.get_feature_set_version discoveryBuf
  let m := { m with sess := { m.sess with featureSet := 0 } }
  if ¬ isSuccess result then
    (result, m)
  else
    let featureSet := oFeatureSet.getD 0
    if featureSet_getProductType featureSet ≠ kProductType_SGPC3 then
      (Error.WrongDeviceType, m)
    else
      let productVersion := featureSet_getProductVersion featureSet
      if productVersion < 6 then
        (Error.WrongDeviceType, m)
      else
        let m := { m with sess := { m.sess with featureSet := productVersion } }
        let (_, m) := set_power_mode_synchronous m mode
        let (result2, m) := tvoc_init_continuous m
        (result2, m)

/-! ## Concrete transport/clock fixtures used by the counterexample theorems -/

/-- A transport whose writes always succeed, whose reads always report 3
bytes available, and whose device would supply the fixed 3-byte group
`12 34 00` — whose third byte is NOT the checksum of the first two. -/
def wireBadCrc : Wire :=
  { endStatus := fun _ => 0, avail := fun _ => 3, supplied := fun _ => [0x12, 0x34, 0x00] }

/-- Machine fixture for the checksum scenario: fresh counters, zero clock. -/
def mBadCrc : M :=
  { sess := { powerMode := PowerMode.Low, tAvail := 0, featureSet := 0 }
    wire := wireBadCrc
    clock := fun _ => 0
    clockIdx := 0, endIdx := 0, reqIdx := 0, writeLog := [] }

/-- A possible initial content of the caller's uninitialized 3-byte response
buffer: stale bytes `BE EF` followed by their own valid checksum. -/
def staleBuf : List Nat :=
  [0xBE, 0xEF, crc [0xBE, 0xEF] kCrcSeedDefault]

/-- A transport whose second write transaction (index 1) fails with I2C
status 4 and everything else succeeds; reads report 3 bytes. -/
def wireSecondWriteFails : Wire :=
  { endStatus := fun i => if i = 1 then 4 else 0, avail := fun _ => 3, supplied := fun _ => [] }

/-- Machine fixture for the `begin` power-mode-failure scenario. -/
def mPmFail : M :=
  { sess := { powerMode := PowerMode.Low, tAvail := 0, featureSet := 0 }
    wire := wireSecondWriteFails
    clock := fun _ => 1000
    clockIdx := 0, endIdx := 0, reqIdx := 0, writeLog := [] }

/-- Discovery buffer decoding to feature-set word `0x1006`
(product type 1 = SGPC3, version 6), with a valid checksum byte. -/
def discBufOk : List Nat :=
  [0x10, 0x06, crc [0x10, 0x06] kCrcSeedDefault]

/-- The machine state `begin mPmFail` reaches just before its
`set_power_mode_synchronous` step: one `millis()` call from `handleChipReset`
and one from the discovery command, one write transaction and one read
request consumed, `m_tAvail = 1000 + 10 + 1`, `m_featureSet = 6`. -/
def mPmFailMid : M :=
  { sess := { powerMode := PowerMode.Low, tAvail := 1011, featureSet := 6 }
    wire := wireSecondWriteFails
    clock := fun _ => 1000
    clockIdx := 2, endIdx := 1, reqIdx := 1, writeLog := [[0x20, 0x2f]] }

/-- A transport where every transaction succeeds and reads report 3 bytes. -/
def wireAllOk : Wire :=
  { endStatus := fun _ => 0, avail := fun _ => 3, supplied := fun _ => [] }

/-- Machine fixture for the wrong-device-version scenario. -/
def mVer3 : M :=
  { sess := { powerMode := PowerMode.Low, tAvail := 0, featureSet := 0 }
    wire := wireAllOk
    clock := fun _ => 5
    clockIdx := 0, endIdx := 0, reqIdx := 0, writeLog := [] }

/-- Discovery buffer decoding to feature-set word `0x1003`
(product type 1 = SGPC3, version 3 — below the minimum 6), valid checksum. -/
def discBufVer3 : List Nat :=
  [0x10, 0x03, crc [0x10, 0x03] kCrcSeedDefault]

/-- A transport whose writes always fail with I2C status 4. -/
def wireWriteFails : Wire :=
  { endStatus := fun _ => 4, avail := fun _ => 0, supplied := fun _ => [] }

/-- Machine fixture with feature set 6 (power-mode command supported) and a
failing transport; prior power mode `UltraLow`. -/
def mWriteFails : M :=
  { sess := { powerMode := PowerMode.UltraLow, tAvail := 0, featureSet := 6 }
    wire := wireWriteFails
    clock := fun _ => 123
    clockIdx := 0, endIdx := 0, reqIdx := 0, writeLog := [] }

/-! # Theorems -/

/-! ## Generic facts about the embedded operations (shared helper lemmas) -/

@[simp]
theorem busWaitGuard_false (tAvail tNow : Nat) : busWaitGuard tAvail tNow = false := by
  simp [busWaitGuard]

theorem sendCommand_sess (m : M) (c : Nat) (p : Option (List Nat)) :
    ((sendCommand m c p).2).sess.powerMode = m.sess.powerMode ∧
    ((sendCommand m c p).2).sess.featureSet = m.sess.featureSet ∧
    ((sendCommand m c p).2).sess.tAvail
      = ((m.clock m.clockIdx) % 2 ^ 32 + getDelayMs c + 1) % 2 ^ 32 ∧
    ((sendCommand m c p).2).endIdx = m.endIdx + 1 := by
  simp only [sendCommand, millisCall, busWaitGuard_false]
  split
  · exact absurd (by assumption) Bool.false_ne_true
  · split <;> (try split) <;> (try split) <;> simp_all

theorem sendCommand_writeError (m : M) (c : Nat) (p : Option (List Nat))
    (h : (m.wire.endStatus m.endIdx) % 256 ≠ 0) :
    (sendCommand m c p).1 = Error.WriteError := by
  simp only [sendCommand, millisCall, busWaitGuard_false]
  simp [h]

/-! ## Claim theorems -/

/-- C1 (code bug): the wait loop of `cSGPC3::sendCommand` never waits.  The
source guard `std::int32_t(this->m_tAvail - tNow < 0)` casts the unsigned
comparison `m_tAvail - tNow < 0` (always false) instead of the signed
difference, so `busWaitGuard` is false for every pair of timestamps and the
write begins immediately.  In particular at the claim's boundary input
`now = 0xFFFFFFF0`, `m_tAvail = 0x00000010` the code does not wait, although
the wraparound-safe signed 32-bit difference `now - m_tAvail` is negative,
i.e. the bus is not yet available and the claim requires the command to
wait. -/
theorem sendCommand_wait_loop_never_waits :
    (∀ tAvail tNow : Nat, busWaitGuard tAvail tNow = false) ∧
    busWaitGuard 0x00000010 0xFFFFFFF0 = false ∧
    toInt32 (u32sub 0xFFFFFFF0 0x00000010) < 0 := by
  refine ⟨busWaitGuard_false, busWaitGuard_false _ _, by decide⟩

/-- C7 (confirmed): `cSGPC3::isSupported` returns `NotSupported` exactly when
the session's feature level is strictly below the command's required feature
level, returns `Success` otherwise, and in particular succeeds when the two
are exactly equal. -/
theorem isSupported_iff_below_required (fs c : Nat) :
    (isSupported fs c = Error.NotSupported ↔ fs < getFeatureSet c) ∧
    (isSupported fs c = Error.Success ↔ ¬ fs < getFeatureSet c) ∧
    isSupported (getFeatureSet c) c = Error.Success := by
  unfold isSupported
  refine ⟨?_, ?_, ?_⟩ <;> split <;> simp_all

/-- Witness for C7 at feature level 6 and the `set_power_mode` descriptor
(required feature level exactly 6): the gate succeeds at exact equality. -/
theorem isSupported_iff_below_required_witness :
    (isSupported 6 Command_t.set_power_mode = Error.NotSupported ↔
      6 < getFeatureSet Command_t.set_power_mode) ∧
    (isSupported 6 Command_t.set_power_mode = Error.Success ↔
      ¬ 6 < getFeatureSet Command_t.set_power_mode) ∧
    isSupported (getFeatureSet Command_t.set_power_mode) Command_t.set_power_mode
      = Error.Success :=
  isSupported_iff_below_required 6 Command_t.set_power_mode

/-- C9 (confirmed): `cSGPC3::crc` is a pure deterministic function of its
input bytes and seed — equal inputs give equal outputs — and on the empty
input it returns the (8-bit) seed unchanged. -/
theorem crc_deterministic_and_empty_seed :
    (∀ (b1 b2 : List Nat) (s1 s2 : Nat), b1 = b2 → s1 = s2 → crc b1 s1 = crc b2 s2) ∧
    (∀ s : Nat, s < 256 → crc [] s = s) := by
  constructor
  · intro b1 b2 s1 s2 hb hs
    rw [hb, hs]
  · intro s hs
    simp [crc, Nat.mod_eq_of_lt hs]

/-- Witness for C9 at concrete inputs: determinism at `[0xBE, 0xEF]`/`0xFF`
and the empty-input case at seed `0xAB`. -/
theorem crc_deterministic_and_empty_seed_witness :
    crc [0xBE, 0xEF] 0xFF = crc [0xBE, 0xEF] 0xFF ∧ crc [] 0xAB = 0xAB :=
  ⟨crc_deterministic_and_empty_seed.1 [0xBE, 0xEF] [0xBE, 0xEF] 0xFF 0xFF rfl rfl,
   crc_deterministic_and_empty_seed.2 0xAB (by decide)⟩

/-- C3 counterexample: feeding the claim's word counts (`paramWordCount = 1`,
`responseWordCount = 2`) directly to the constructor `CommandInit` does not
round-trip: the constructor's length parameters are byte counts which it
divides by 3, so the accessors return `1 / 3 = 0` and `2 / 3 = 0`, not the
constructor inputs. -/
theorem CommandInit_wordCount_input_not_recovered :
    getParameterLength (CommandInit 0x2008 1 0 10 0) ≠ 1 ∧
    getResponseLength (CommandInit 0x2008 0 2 10 0) ≠ 2 := by
  decide

/-! ## Bit-packing toolkit (helper lemmas for the descriptor round-trip) -/

theorem and_shiftLeft_comm (x w s : Nat) :
    x &&& (w <<< s) = ((x >>> s) &&& w) <<< s := by
  apply Nat.eq_of_testBit_eq
  intro i
  simp only [Nat.testBit_and, Nat.testBit_shiftLeft, Nat.testBit_shiftRight]
  rcases Nat.lt_or_ge i s with h | h
  · simp [Nat.not_le.mpr h, Nat.testBit_lt_two_pow]
  · simp [h, Nat.add_sub_cancel' h, Bool.and_left_comm, Bool.and_comm]

theorem shiftLeft_and_mask {y : Nat} (k s : Nat) (h : y < 2 ^ k) :
    (y <<< s) &&& ((2 ^ k - 1) <<< s) = y <<< s := by
  rw [and_shiftLeft_comm, Nat.shiftLeft_shiftRight, Nat.and_pow_two_sub_one_eq_mod,
    Nat.mod_eq_of_lt h]

theorem CommandInit_packs (code pw rw d f : Nat)
    (hc : code < 2 ^ 14) (hp : pw ≤ 1) (hr : rw ≤ 3) (hd : d < 2 ^ 8) (hf : f < 2 ^ 4) :
    CommandInit code (3 * pw) (3 * rw) d f =
      code + 2 ^ 16 * pw + 2 ^ 17 * rw + 2 ^ 20 * f + 2 ^ 24 * d := by
  have hc16 : code < 2 ^ 16 := by omega
  have hp3 : 3 * pw < 2 ^ 8 := by omega
  have hr3 : 3 * rw < 2 ^ 8 := by omega
  have hpdiv : 3 * pw / 3 = pw := by omega
  have hrdiv : 3 * rw / 3 = rw := by omega
  simp only [CommandInit, kCommandMask, kParamLenMask, kResponseLenMask, kFeatureMask,
    kDelayMask, Nat.mod_eq_of_lt hc16, Nat.mod_eq_of_lt hp3, Nat.mod_eq_of_lt hr3,
    Nat.mod_eq_of_lt hd, Nat.mod_eq_of_lt (show f < 2 ^ 8 by omega), hpdiv, hrdiv]
  rw [show (16383 : Nat) = 2 ^ 14 - 1 from rfl,
    Nat.and_pow_two_sub_one_of_lt_two_pow hc,
    show (1 : Nat) <<< 16 = (2 ^ 1 - 1) <<< 16 from rfl,
    show (7 : Nat) <<< 17 = (2 ^ 3 - 1) <<< 17 from rfl,
    show (15 : Nat) <<< 20 = (2 ^ 4 - 1) <<< 20 from rfl,
    show (255 : Nat) <<< 24 = (2 ^ 8 - 1) <<< 24 from rfl,
    shiftLeft_and_mask 1 16 (show pw < 2 ^ 1 by omega),
    shiftLeft_and_mask 3 17 (show rw < 2 ^ 3 by omega),
    shiftLeft_and_mask 4 20 hf,
    shiftLeft_and_mask 8 24 hd]
  rw [Nat.shiftLeft_eq, Nat.shiftLeft_eq, Nat.shiftLeft_eq, Nat.shiftLeft_eq]
  rw [Nat.mul_comm pw (2 ^ 16), Nat.mul_comm rw (2 ^ 17), Nat.mul_comm f (2 ^ 20),
    Nat.mul_comm d (2 ^ 24)]
  rw [Nat.or_comm code (2 ^ 16 * pw),
    ← Nat.mul_add_lt_is_or (by omega : code < 2 ^ 16) pw]
  rw [Nat.or_comm (2 ^ 16 * pw + code) (2 ^ 17 * rw),
    ← Nat.mul_add_lt_is_or (by omega : 2 ^ 16 * pw + code < 2 ^ 17) rw]
  rw [Nat.or_comm (2 ^ 17 * rw + (2 ^ 16 * pw + code)) (2 ^ 20 * f),
    ← Nat.mul_add_lt_is_or (by omega : 2 ^ 17 * rw + (2 ^ 16 * pw + code) < 2 ^ 20) f]
  rw [Nat.or_comm (2 ^ 20 * f + (2 ^ 17 * rw + (2 ^ 16 * pw + code))) (2 ^ 24 * d),
    ← Nat.mul_add_lt_is_or
      (by omega : 2 ^ 20 * f + (2 ^ 17 * rw + (2 ^ 16 * pw + code)) < 2 ^ 24) d]
  ring

/-- C3 amended (corrected claim): the constructor's length inputs are byte
counts (3 bytes per word).  For every opcode below 2^14, word counts
`pw ≤ 1` and `rw ≤ 3` passed as byte counts `3*pw` and `3*rw`, delay below
256 and feature level below 16, each accessor recovers the corresponding
field: the opcode, delay and feature level exactly, and the two lengths as
word counts, i.e. the byte-count inputs divided by 3. -/
theorem CommandInit_roundTrip (code pw rw d f : Nat)
    (hc : code < 2 ^ 14) (hp : pw ≤ 1) (hr : rw ≤ 3) (hd : d < 2 ^ 8) (hf : f < 2 ^ 4) :
    getCommand (CommandInit code (3 * pw) (3 * rw) d f) = code ∧
    getParameterLength (CommandInit code (3 * pw) (3 * rw) d f) = pw ∧
    getResponseLength (CommandInit code (3 * pw) (3 * rw) d f) = rw ∧
    getFeatureSet (CommandInit code (3 * pw) (3 * rw) d f) = f ∧
    getDelayMs (CommandInit code (3 * pw) (3 * rw) d f) = d := by
  rw [CommandInit_packs code pw rw d f hc hp hr hd hf]
  unfold getCommand getParameterLength getResponseLength getFeatureSet getDelayMs
  unfold kCommandMask kParamLenMask kResponseLenMask kFeatureMask kDelayMask
  rw [show (16383 : Nat) = 2 ^ 14 - 1 from rfl,
    show (1 : Nat) <<< 16 = (2 ^ 1 - 1) <<< 16 from rfl,
    show (7 : Nat) <<< 17 = (2 ^ 3 - 1) <<< 17 from rfl,
    show (15 : Nat) <<< 20 = (2 ^ 4 - 1) <<< 20 from rfl,
    show (255 : Nat) <<< 24 = (2 ^ 8 - 1) <<< 24 from rfl]
  rw [and_shiftLeft_comm, and_shiftLeft_comm, and_shiftLeft_comm, and_shiftLeft_comm,
    Nat.shiftLeft_shiftRight, Nat.shiftLeft_shiftRight, Nat.shiftLeft_shiftRight,
    Nat.shiftLeft_shiftRight]
  simp only [Nat.and_pow_two_sub_one_eq_mod, Nat.shiftRight_eq_div_pow]
  refine ⟨?_, ?_, ?_, ?_, ?_⟩ <;> omega

/-! ## CRC toolkit (helper lemmas for the checksum refinement) -/

theorem crcTable_getD_lt (p : Nat) : crcTable.getD p 0 < 256 := by
  rcases Nat.lt_or_ge p 16 with h | h
  · interval_cases p <;> decide
  · rw [List.getD_eq_default]
    · decide
    · simpa [crcTable] using h

set_option maxRecDepth 4096 in
theorem crcBits_four :
    ∀ y < 256, crcBits 4 y = ((y <<< 4) % 256) ^^^ crcTable.getD (y >>> 4) 0 := by
  decide

theorem crcBits_eight (acc : Nat) : crcBits 8 acc = crcBits 4 (crcBits 4 acc) := rfl

theorem testBit_false_of_lt_256 {t : Nat} (ht : t < 256) :
    ∀ j, 8 ≤ j → t.testBit j = false := by
  intro j hj
  have h28 : (2 : Nat) ^ 8 ≤ 2 ^ j := Nat.pow_le_pow_right (by norm_num) hj
  exact Nat.testBit_lt_two_pow (by omega)

theorem crc_nibble_index (a b t : Nat) (ht : t < 256) :
    (((((a <<< 4) ^^^ t) % 256) >>> 4) ^^^ b) &&& 15 =
      ((((a ^^^ b) <<< 4) % 256) ^^^ t) >>> 4 := by
  have ht' := testBit_false_of_lt_256 ht
  apply Nat.eq_of_testBit_eq
  intro i
  rw [show (256 : Nat) = 2 ^ 8 from rfl, show (15 : Nat) = 2 ^ 4 - 1 from rfl]
  simp only [Nat.testBit_and, Nat.testBit_xor, Nat.testBit_mod_two_pow,
    Nat.testBit_shiftLeft, Nat.testBit_shiftRight, Nat.testBit_two_pow_sub_one]
  rcases Nat.lt_or_ge i 4 with h | h
  · have e1 : 4 + i - 4 = i := by omega
    have e2 : (4 : Nat) + i < 8 := by omega
    have e3 : (4 : Nat) ≤ 4 + i := by omega
    simp only [h, e1, e2, e3, decide_True, ge_iff_le, Nat.le_refl, Bool.true_and,
      Bool.and_true, decide_eq_true_eq]
    cases a.testBit i <;> cases b.testBit i <;> cases t.testBit (4 + i) <;> rfl
  · have hf : t.testBit (4 + i) = false := ht' _ (by omega)
    simp [Nat.not_lt.mpr h, hf]
    exact fun h8 => absurd h8 (by omega)

theorem crc_nibble_shift (a b t u : Nat) (hu : u < 256) :
    (((((a <<< 4) ^^^ t) % 256) <<< 4) ^^^ u) % 256 =
      ((((((a ^^^ b) <<< 4) % 256) ^^^ t) <<< 4) % 256) ^^^ u := by
  have hu' := testBit_false_of_lt_256 hu
  apply Nat.eq_of_testBit_eq
  intro j
  rw [show (256 : Nat) = 2 ^ 8 from rfl]
  simp only [Nat.testBit_xor, Nat.testBit_mod_two_pow, Nat.testBit_shiftLeft,
    Nat.testBit_shiftRight]
  rcases Nat.lt_or_ge j 8 with h | h
  · rcases Nat.lt_or_ge j 4 with h4 | h4
    · simp [h, Nat.not_le.mpr h4]
    · have e1 : j - 4 < 8 := by omega
      have e2 : j - 4 < 4 := by omega
      simp [h, h4, e1, Nat.not_le.mpr e2]
  · have hf : u.testBit j = false := hu' _ h
    simp [Nat.not_lt.mpr h, hf]

theorem crcBitStep_lt (acc : Nat) : crcBitStep acc < 256 := by
  unfold crcBitStep
  split
  · have h := @Nat.xor_lt_two_pow ((acc <<< 1) % 256) 0x31 8
      (by omega) (by norm_num)
    omega
  · omega

theorem crcBits_lt (n : Nat) : ∀ acc, acc < 256 → crcBits n acc < 256 := by
  induction n with
  | zero => intro acc h; exact h
  | succ n ih => intro acc _; exact ih _ (crcBitStep_lt acc)

theorem crcByteStep_eq_refByte (a b : Nat) (ha : a < 256) (hb : b < 256) :
    crcByteStep a b = crcRefByte a b := by
  have hx : a ^^^ b < 256 := by
    have h := @Nat.xor_lt_two_pow a b 8 (by omega) (by omega)
    omega
  have htlt : crcTable.getD ((a ^^^ b) >>> 4) 0 < 256 := crcTable_getD_lt _
  have hm : (((a ^^^ b) <<< 4) % 256) ^^^ crcTable.getD ((a ^^^ b) >>> 4) 0 < 256 := by
    have h := @Nat.xor_lt_two_pow (((a ^^^ b) <<< 4) % 256)
      (crcTable.getD ((a ^^^ b) >>> 4) 0) 8 (by omega) (by omega)
    omega
  have hrhs : crcRefByte a b =
      (((((((a ^^^ b) <<< 4) % 256) ^^^ crcTable.getD ((a ^^^ b) >>> 4) 0) <<< 4) % 256) ^^^
        crcTable.getD (((((a ^^^ b) <<< 4) % 256) ^^^ crcTable.getD ((a ^^^ b) >>> 4) 0) >>> 4) 0) := by
    rw [crcRefByte, Nat.mod_eq_of_lt hx, crcBits_eight, crcBits_four _ hx, crcBits_four _ hm]
  rw [hrhs]
  simp only [crcByteStep]
  rw [Nat.xor_comm b a, Nat.mod_eq_of_lt hx]
  rw [crc_nibble_index a b _ htlt]
  exact crc_nibble_shift a b _ _ (crcTable_getD_lt _)

theorem crc_foldl_eq (buf : List Nat) :
    ∀ acc, acc < 256 → (∀ x ∈ buf, x < 256) →
      List.foldl (fun a b => crcByteStep a (b % 256)) acc buf =
        List.foldl crcRefByte acc buf := by
  induction buf with
  | nil => intro acc _ _; rfl
  | cons b bs ih =>
    intro acc hacc hmem
    have hb : b < 256 := hmem b (List.mem_cons_self b bs)
    have hstep : crcByteStep acc (b % 256) = crcRefByte acc b := by
      rw [Nat.mod_eq_of_lt hb]
      exact crcByteStep_eq_refByte acc b hacc hb
    have hnext : crcRefByte acc b < 256 := crcBits_lt 8 _ (by omega)
    simp only [List.foldl_cons, hstep]
    exact ih _ hnext (fun x hx => hmem x (List.mem_cons_of_mem b hx))

/-- C10 (confirmed, refinement): over byte-valued inputs and an 8-bit seed the
table-driven two-nibble-per-byte `crc` computes exactly the reference bitwise
CRC-8 with polynomial `0x31`, MSB-first, byte XORed into the accumulator, no
final XOR (`crcRef`); and each of the 16 table entries is the bitwise CRC
(4 shift steps, one per message bit) of the nibble `i` placed in the high
4 bits of the byte. -/
theorem crc_refines_bitwise_crc8 :
    (∀ (buf : List Nat) (seed : Nat), seed < 256 → (∀ x ∈ buf, x < 256) →
      crc buf seed = crcRef buf seed) ∧
    (∀ i < 16, crcTable.getD i 0 = crcBits 4 (i <<< 4)) := by
  constructor
  · intro buf seed hseed hmem
    rw [crc, crcRef, Nat.mod_eq_of_lt hseed]
    exact crc_foldl_eq buf seed hseed hmem
  · decide

/-- Witness for C10 at the Sensirion datasheet example `0xBEEF` (whose CRC is
`0x92`) and at table index 1. -/
theorem crc_refines_bitwise_crc8_witness :
    crc [0xBE, 0xEF] 0xFF = crcRef [0xBE, 0xEF] 0xFF ∧
    crcTable.getD 1 0 = crcBits 4 (1 <<< 4) :=
  ⟨crc_refines_bitwise_crc8.1 [0xBE, 0xEF] 0xFF (by decide) (by decide),
   crc_refines_bitwise_crc8.2 1 (by decide)⟩

/-- Witness for C3's amended round-trip at the `set_power_mode` descriptor
constants: opcode `0x209f`, one parameter word, no response words, delay 10,
feature level 6. -/
theorem CommandInit_roundTrip_witness :
    getCommand (CommandInit 0x209f (3 * 1) (3 * 0) 10 6) = 0x209f ∧
    getParameterLength (CommandInit 0x209f (3 * 1) (3 * 0) 10 6) = 1 ∧
    getResponseLength (CommandInit 0x209f (3 * 1) (3 * 0) 10 6) = 0 ∧
    getFeatureSet (CommandInit 0x209f (3 * 1) (3 * 0) 10 6) = 6 ∧
    getDelayMs (CommandInit 0x209f (3 * 1) (3 * 0) 10 6) = 10 :=
  CommandInit_roundTrip 0x209f 1 0 10 6 (by decide) (by decide) (by decide)
    (by decide) (by decide)

/-! ## Transaction and session helper lemmas -/

theorem isSupported_cases (fs c : Nat) :
    isSupported fs c = Error.NotSupported ∨ isSupported fs c = Error.Success := by
  unfold isSupported
  split <;> simp

theorem sendSynchronousParam_powerMode (m : M) (c q : Nat) :
    ((sendSynchronousParam m c q).2).sess.powerMode = m.sess.powerMode := by
  simp only [sendSynchronousParam, sendCommandWithParam]
  split
  · rfl
  · exact (sendCommand_sess m c _).1

theorem sendCommandWithResponse_endIdx (m : M) (c : Nat) (buf : List Nat) :
    ((sendCommandWithResponse m c buf).2).endIdx = m.endIdx + 1 := by
  have h := (sendCommand_sess m c none).2.2.2
  unfold sendCommandWithResponse
  rcases hE : sendCommand m c none with ⟨r, m1⟩
  rw [hE] at h
  simp only []
  split
  · exact h
  · split <;> exact h

theorem sendAndGetSynchronous_endIdx (m : M) (c : Nat) (buf : List Nat) :
    (sendAndGetSynchronous m c buf).1.1 = Error.NotSupported ∨
    ((sendAndGetSynchronous m c buf).2).endIdx = m.endIdx + 1 := by
  simp only [sendAndGetSynchronous]
  split
  · rcases isSupported_cases m.sess.featureSet c with h | h
    · left
      simpa using h
    · rename_i hfail
      rw [h] at hfail
      simp [isSuccess] at hfail
  · right
    exact sendCommandWithResponse_endIdx m c buf

theorem handleChipReset_endIdx (m : M) : (handleChipReset m).endIdx = m.endIdx := rfl

/-! ## Remaining claim theorems -/

/-- C4 (confirmed): once `sendCommand` attempts the bus write, it sets
`m_tAvail` to `tNow + getDelayMs(c) + 1` (mod 2^32), where `tNow` is the
`millis()` sample taken at entry — on every path, including the one where
`endTransmission` reports a nonzero status and `WriteError` is returned. -/
theorem sendCommand_advances_tAvail (m : M) (c : Nat) (p : Option (List Nat)) :
    ((sendCommand m c p).2).sess.tAvail
      = ((m.clock m.clockIdx) % 2 ^ 32 + getDelayMs c + 1) % 2 ^ 32 ∧
    ((m.wire.endStatus m.endIdx) % 256 ≠ 0 → (sendCommand m c p).1 = Error.WriteError) :=
  ⟨(sendCommand_sess m c p).2.2.1, fun h => sendCommand_writeError m c p h⟩

/-- Witness for C4 on a transport whose write fails with I2C status 4: the
result is `WriteError` and `m_tAvail` is still advanced to
`now + delay + 1`. -/
theorem sendCommand_advances_tAvail_witness :
    (mWriteFails.wire.endStatus mWriteFails.endIdx) % 256 ≠ 0 ∧
    (sendCommand mWriteFails Command_t.measure_tvoc none).1 = Error.WriteError ∧
    ((sendCommand mWriteFails Command_t.measure_tvoc none).2).sess.tAvail
      = ((mWriteFails.clock mWriteFails.clockIdx) % 2 ^ 32
          + getDelayMs Command_t.measure_tvoc + 1) % 2 ^ 32 :=
  ⟨by decide,
   (sendCommand_advances_tAvail mWriteFails Command_t.measure_tvoc none).2 (by decide),
   (sendCommand_advances_tAvail mWriteFails Command_t.measure_tvoc none).1⟩

/-- C8 (confirmed): `set_power_mode_synchronous` returns the underlying
command's result verbatim, and updates the stored `m_powerMode` only when
that result is a success: whenever the result is failing, the stored power
mode is unchanged from its prior value. -/
theorem set_power_mode_updates_only_on_success (m : M) (mode : PowerMode) :
    (set_power_mode_synchronous m mode).1
      = (sendSynchronousParam m Command_t.set_power_mode mode.toUint16).1 ∧
    (isSuccess (set_power_mode_synchronous m mode).1 = false →
      ((set_power_mode_synchronous m mode).2).sess.powerMode = m.sess.powerMode) := by
  have hpm := sendSynchronousParam_powerMode m Command_t.set_power_mode mode.toUint16
  rcases hE : sendSynchronousParam m Command_t.set_power_mode mode.toUint16 with ⟨r, m1⟩
  rw [hE] at hpm
  simp only [set_power_mode_synchronous, hE]
  constructor
  · split <;> rfl
  · split
    · intro h
      simp_all
    · intro _
      exact hpm

/-- Witness for C8: with feature set 6 and a transport whose write fails, the
call fails (with `WriteError`) and the stored power mode is still the prior
`UltraLow` even though `Low` was requested. -/
theorem set_power_mode_updates_only_on_success_witness :
    isSuccess (set_power_mode_synchronous mWriteFails PowerMode.Low).1 = false ∧
    (set_power_mode_synchronous mWriteFails PowerMode.Low).1 = Error.WriteError ∧
    ((set_power_mode_synchronous mWriteFails PowerMode.Low).2).sess.powerMode
      = PowerMode.UltraLow :=
  ⟨by decide, by decide,
   (set_power_mode_updates_only_on_success mWriteFails PowerMode.Low).2 (by decide)⟩

/-- C2 (code bug): `sendCommand` never transfers the transport's response
bytes into the caller's buffer (after `requestFrom` no `read()` call occurs
and `pResultBytes` is never written), so `sendCommandWithResponse` CRC-checks
the uninitialized stack buffer.  Concretely: the transport supplies the group
`12 34 00` whose checksum byte `0x00` is wrong, yet the call returns
`Success` and populates the response with the stale buffer value `0xBEEF`;
moreover the outcome is invariant under every choice of transport-supplied
bytes. -/
theorem sendCommandWithResponse_ignores_transport_bytes :
    (sendCommandWithResponse mBadCrc Command_t.measure_tvoc staleBuf).1
      = (Error.Success, some 0xBEEF) ∧
    crc [0x12, 0x34] kCrcSeedDefault ≠ 0x00 ∧
    (∀ f : Nat → List Nat,
      (sendCommandWithResponse
          { mBadCrc with wire := { wireBadCrc with supplied := f } }
          Command_t.measure_tvoc staleBuf).1
        = (sendCommandWithResponse mBadCrc Command_t.measure_tvoc staleBuf).1) :=
  ⟨by decide, by decide, fun _ => rfl⟩

/-- C5 (code bug): in `begin`, the result of `set_power_mode_synchronous` is
overwritten by the result of `tvoc_init_continuous()`.  On a transport whose
second write transaction (the power-mode command) fails while discovery and
continuous-mode initialization succeed, the power-mode step returns
`WriteError` from the state `begin` reaches before it (`mPmFailMid`), yet
`begin` returns `Success`.  The third conjunct ties `mPmFailMid` to `begin`:
the whole call equals the composition of the two final steps from it. -/
theorem begin_ignores_power_mode_failure :
    (begin mPmFail PowerMode.Low discBufOk).1 = Error.Success ∧
    (set_power_mode_synchronous mPmFailMid PowerMode.Low).1 = Error.WriteError ∧
    begin mPmFail PowerMode.Low discBufOk
      = tvoc_init_continuous (set_power_mode_synchronous mPmFailMid PowerMode.Low).2 :=
  ⟨by decide, by decide, rfl⟩

/-- C6 (confirmed): when the feature-discovery command succeeds with a
decoded feature-set word whose product type is not the SGPC3 code or whose
product version is below 6, `begin` returns `WrongDeviceType`, issues no
further command (exactly one write transaction total), and leaves the stored
feature level at 0 — so every feature-gated command (required feature level
above 0) is subsequently rejected with `NotSupported`. -/
theorem begin_wrong_device_guard (m : M) (mode : PowerMode) (buf : List Nat) (v : Nat)
    (hdisc : (sendAndGetSynchronous (handleChipReset m)
        Command_t.get_feature_set_version buf).1 = (Error.Success, some v))
    (hbad : featureSet_getProductType v ≠ kProductType_SGPC3 ∨
        featureSet_getProductVersion v < 6) :
    (begin m mode buf).1 = Error.WrongDeviceType ∧
    ((begin m mode buf).2).sess.featureSet = 0 ∧
    ((begin m mode buf).2).endIdx = m.endIdx + 1 ∧
    (∀ c, 0 < getFeatureSet c →
      isSupported ((begin m mode buf).2).sess.featureSet c = Error.NotSupported) := by
  have hidx := sendAndGetSynchronous_endIdx (handleChipReset m)
    Command_t.get_feature_set_version buf
  rcases hE : sendAndGetSynchronous (handleChipReset m)
      Command_t.get_feature_set_version buf with ⟨⟨r, o⟩, m2⟩
  rw [hE] at hidx hdisc
  rw [Prod.mk.injEq] at hdisc
  obtain ⟨hr, ho⟩ := hdisc
  subst hr
  subst ho
  rcases hidx with hbadidx | hidx
  · simp at hbadidx
  rw [handleChipReset_endIdx] at hidx
  have hgoal : ∀ out : Error × M,
      out.1 = Error.WrongDeviceType → out.2 = { m2 with sess := { m2.sess with featureSet := 0 } } →
      out.1 = Error.WrongDeviceType ∧
      out.2.sess.featureSet = 0 ∧
      out.2.endIdx = m.endIdx + 1 ∧
      (∀ c, 0 < getFeatureSet c →
        isSupported out.2.sess.featureSet c = Error.NotSupported) := by
    intro out h1 h2
    refine ⟨h1, by rw [h2], by rw [h2]; exact hidx, ?_⟩
    intro c hc
    rw [h2]
    unfold isSupported
    simp only []
    rw [if_pos hc]
  by_cases htype : featureSet_getProductType v ≠ kProductType_SGPC3
  · exact hgoal _ (by simp [begin, hE, isSuccess, htype]) (by simp [begin, hE, isSuccess, htype])
  · rcases hbad with hb | hb
    · exact absurd hb htype
    · exact hgoal _ (by simp [begin, hE, isSuccess, htype, hb])
        (by simp [begin, hE, isSuccess, htype, hb])

/-- Witness for C6 at a concrete all-success transport whose discovery
decodes `0x1003` (SGPC3, version 3 below the minimum 6). -/
theorem begin_wrong_device_guard_witness :
    (begin mVer3 PowerMode.Low discBufVer3).1 = Error.WrongDeviceType ∧
    ((begin mVer3 PowerMode.Low discBufVer3).2).sess.featureSet = 0 ∧
    ((begin mVer3 PowerMode.Low discBufVer3).2).endIdx = mVer3.endIdx + 1 ∧
    isSupported ((begin mVer3 PowerMode.Low discBufVer3).2).sess.featureSet
      Command_t.set_power_mode = Error.NotSupported := by
  have h := begin_wrong_device_guard mVer3 PowerMode.Low discBufVer3 0x1003
    (by decide) (by decide)
  exact ⟨h.1, h.2.1, h.2.2.1, h.2.2.2 Command_t.set_power_mode (by decide)⟩

end SGPC3
